import Mathlib

/-!
Shallow embedding of the FitMirror orchestration-and-storage core:
the local store (`src/services/storage.ts`), the canonical provider client
(`src/services/fal.ts`) and the alternate provider client
(`src/services/openrouter.ts`).  Effectful steps (network calls, random
draws, clock reads) are modelled as explicit inputs; the durable
AsyncStorage layer is fails-soft per the spec, so the in-memory
`StorageData` object is the authoritative state and flush calls are not
modelled.
-/

namespace FitMirror

/-- A JS value as stored in the settings map (`settings: Record<string, any>`).
Numbers are modelled as integers (no claim depends on float behaviour);
objects carry their fields. -/
inductive Value where
  | vNull
  | vBool (b : Bool)
  | vNum (n : Int)
  | vStr (s : String)
  | vObj (fields : List (String × Value))

/-- JS truthiness, as used by `if (apiKey)` and `value || null`. -/
def Value.truthy : Value → Bool
  | .vNull => false
  | .vBool b => b
  | .vNum n => n != 0
  | .vStr s => s != ""
  | .vObj _ => true

/-- `type: 'user' | 'outfit' | 'result'` of a gallery item. -/
inductive ItemType where
  | user
  | outfit
  | result
deriving Repr, DecidableEq

/-- A gallery item as stored in `data.galleryItems`. -/
structure GalleryItem where
  id : String
  uri : String
  type : ItemType
  timestamp : Nat
deriving Repr, DecidableEq

/-- `userProfile` entry of the store. -/
structure UserProfile where
  name : String
  email : String
  profileImage : Option String
deriving Repr, DecidableEq

/-- The in-memory `StorageData` object of `StorageService`.  The settings
record is an association list with unique keys (a JS object). -/
structure StorageData where
  settings : List (String × Value)
  galleryItems : List GalleryItem
  userProfile : Option UserProfile

/-- Initial `data` object of `StorageService`. -/
def initialData : StorageData := { settings := [], galleryItems := [], userProfile := none }

/-- JS object assignment `settings[key] = value`: replace the entry when the
key exists, append it otherwise. -/
def setEntry : List (String × Value) → String → Value → List (String × Value)
  | [], k, v => [(k, v)]
  | (k', v') :: rest, k, v =>
      if k' = k then (k, v) :: rest else (k', v') :: setEntry rest k v

/-- `setSetting(key, value)`: `this.data.settings[key] = value` (the
AsyncStorage flush is fails-soft and not modelled). -/
def StorageData.setSetting (st : StorageData) (k : String) (v : Value) : StorageData :=
  { st with settings := setEntry st.settings k v }

/-- `getSetting(key)`: `return this.data.settings[key] || null` — a missing
key yields `null`, and a present but falsy value also collapses to `null`. -/
def StorageData.getSetting (st : StorageData) (k : String) : Value :=
  match st.settings.lookup k with
  | some v => if v.truthy then v else Value.vNull
  | none => Value.vNull

/-- `deleteSetting(key)`: `delete this.data.settings[key]`. -/
def StorageData.deleteSetting (st : StorageData) (k : String) : StorageData :=
  { st with settings := st.settings.filter (fun p => p.1 != k) }

/-- The id template `${Date.now()}-${Math.random().toString(36).substring(2, 9)}`;
`now` is the clock reading and `suffix` the random draw. -/
def galleryId (now : Nat) (suffix : String) : String :=
  toString now ++ "-" ++ suffix

/-- `saveGalleryItem(uri, type)`: build the id from the clock and the random
suffix, push the new item, return the id.  The two `Date.now()` reads of the
source happen in the same call and are modelled as one reading `now`. -/
def StorageData.saveGalleryItem (st : StorageData) (uri : String) (t : ItemType)
    (now : Nat) (suffix : String) : StorageData × String :=
  let id := galleryId now suffix
  ({ st with galleryItems := st.galleryItems ++ [⟨id, uri, t, now⟩] }, id)

/-- `getGalleryItems(type?)`: filter by type when one is given. -/
def StorageData.getGalleryItems (st : StorageData) (t : Option ItemType) : List GalleryItem :=
  match t with
  | some ty => st.galleryItems.filter (fun item => item.type == ty)
  | none => st.galleryItems

/-- `deleteGalleryItem(id)` (string branch; the number branch first converts
with `toString`): keep the items whose id differs. -/
def StorageData.deleteGalleryItem (st : StorageData) (id : String) : StorageData :=
  { st with galleryItems := st.galleryItems.filter (fun item => item.id != id) }

/-- `setUserProfile(profile)`: whole-object replace. -/
def StorageData.setUserProfile (st : StorageData) (p : UserProfile) : StorageData :=
  { st with userProfile := some p }

/-- `getUserProfile()`. -/
def StorageData.getUserProfile (st : StorageData) : Option UserProfile :=
  st.userProfile

/-- `clearCache()`: keep only the gallery items whose type is not `result`. -/
def StorageData.clearCache (st : StorageData) : StorageData :=
  { st with galleryItems := st.galleryItems.filter (fun item => item.type != ItemType.result) }

/-! ## Canonical provider client (`src/services/fal.ts`) -/

/-- Counts of network traffic caused by one client operation: lightweight
connectivity probes, image-storage uploads, and calls to the paid generation
endpoint. -/
structure NetCalls where
  probes : Nat
  uploads : Nat
  genCalls : Nat
deriving Repr, DecidableEq

/-- The in-memory `FalConfig` of `FalService`.  The `apiKey` field is
assigned from `getSetting` (an `any`), hence carries a `Value`. -/
structure FalConfig where
  apiKey : Value
  model : String

/-- The constructor's initial config: `{ apiKey: '', model: 'fal-ai/nano-banana/edit' }`. -/
def falInitialConfig : FalConfig :=
  { apiKey := Value.vStr "", model := "fal-ai/nano-banana/edit" }

namespace FalService

/-- `loadApiKey()`: read the `fal_api_key` setting; adopt it only when it is
truthy (`if (apiKey) { this.config.apiKey = apiKey; ... }`), otherwise keep
the in-memory key unchanged. -/
def loadApiKey (cfg : FalConfig) (st : StorageData) : FalConfig :=
  let apiKey := st.getSetting "fal_api_key"
  if apiKey.truthy then { cfg with apiKey := apiKey } else cfg

/-- `setApiKey(apiKey)`: update the in-memory config and write through to the
store. -/
def setApiKey (cfg : FalConfig) (st : StorageData) (apiKey : String) :
    FalConfig × StorageData :=
  ({ cfg with apiKey := Value.vStr apiKey }, st.setSetting "fal_api_key" (Value.vStr apiKey))

/-- `getApiKey()`. -/
def getApiKey (cfg : FalConfig) : Value :=
  cfg.apiKey

/-- `getApiKeyFromStorage()`: reload, then return the in-memory key. -/
def getApiKeyFromStorage (cfg : FalConfig) (st : StorageData) : Value × FalConfig :=
  let cfg := loadApiKey cfg st
  (cfg.apiKey, cfg)

/-- `clearApiKey()`: reset the in-memory key to `''` and delete the setting. -/
def clearApiKey (cfg : FalConfig) (st : StorageData) : FalConfig × StorageData :=
  ({ cfg with apiKey := Value.vStr "" }, st.deleteSetting "fal_api_key")

/-- Result object of `testConnection`. -/
structure ConnResult where
  success : Bool
  error : Option String
deriving Repr, DecidableEq

/-- Outcome of the HEAD probe to `https://fal.run`: an HTTP status, or a
thrown network error with its message. -/
inductive ProbeOutcome where
  | status (code : Nat)
  | networkError (msg : String)
deriving Repr, DecidableEq

/-- The regex gate `^[a-zA-Z0-9\-_]+$` of `testConnection` (the in-memory key
is a string on every path the claims exercise). -/
def keyFormatOk : Value → Bool
  | .vStr s => s != "" && s.data.all (fun c => c.isAlphanum || c == '-' || c == '_')
  | _ => false

/-- `testConnection()`: fail fast without a probe when the key is missing or
malformed; otherwise issue one HEAD probe (never a generation call) and map
its status: 401 to invalid key, `[200, 500)` to success, anything else to
service unavailable; a thrown fetch error is caught and reported as-is. -/
def testConnection (cfg : FalConfig) (st : StorageData) (probe : ProbeOutcome) :
    ConnResult × FalConfig × NetCalls :=
  let cfg := loadApiKey cfg st
  if !cfg.apiKey.truthy then
    (⟨false, some "API key is required"⟩, cfg, ⟨0, 0, 0⟩)
  else if !keyFormatOk cfg.apiKey then
    (⟨false, some "Invalid API key format"⟩, cfg, ⟨0, 0, 0⟩)
  else
    match probe with
    | .status code =>
        if code == 401 then
          (⟨false, some "Invalid API key"⟩, cfg, ⟨1, 0, 0⟩)
        else if 200 ≤ code && code < 500 then
          (⟨true, none⟩, cfg, ⟨1, 0, 0⟩)
        else
          (⟨false, some s!"Service unavailable (HTTP {code})"⟩, cfg, ⟨1, 0, 0⟩)
    | .networkError msg => (⟨false, some msg⟩, cfg, ⟨1, 0, 0⟩)

/-- `FalStyleMeResponse`. -/
structure FalStyleMeResponse where
  success : Bool
  imageUrl : Option String
  error : Option String
  requestId : Option String
deriving Repr, DecidableEq

/-- External world of one `generateStyleMe` call: either an image upload to
fal storage throws, or `fal.run` throws, or `fal.run` returns a result whose
`data.images` is the given optional url list (with its request id). -/
inductive FalGenWorld where
  | uploadFail (msg : String)
  | runFail (msg : String)
  | runOk (images : Option (List String)) (requestId : String)
deriving Repr, DecidableEq

/-- Worlds in which both uploads succeed and the generation endpoint is
actually reached (the claims' "valid image references"). -/
def FalGenWorld.callsProvider : FalGenWorld → Bool
  | .uploadFail _ => false
  | .runFail _ => true
  | .runOk _ _ => true

/-- `generateStyleMe(request)`: reload the key; a missing key throws and the
catch block wraps the message; otherwise upload both images (two storage
uploads), call `fal.run` once, and extract `result.data.images[0].url` from
the structured field — the only extraction strategy of this client.  An
empty or missing image list yields the `'No image generated by the model'`
failure; a thrown error is caught and wrapped as
`'Virtual try-on failed: ...'`. -/
def generateStyleMe (cfg : FalConfig) (st : StorageData) (w : FalGenWorld) :
    FalStyleMeResponse × FalConfig × NetCalls :=
  let cfg := loadApiKey cfg st
  if !cfg.apiKey.truthy then
    (⟨false, none,
      some "Virtual try-on failed: Fal.ai API key is not configured. Please add your API key in Settings.",
      none⟩, cfg, ⟨0, 0, 0⟩)
  else
    match w with
    | .uploadFail msg =>
        (⟨false, none, some s!"Virtual try-on failed: {msg}", none⟩, cfg, ⟨0, 1, 0⟩)
    | .runFail msg =>
        (⟨false, none, some s!"Virtual try-on failed: {msg}", none⟩, cfg, ⟨0, 2, 1⟩)
    | .runOk images requestId =>
        match images with
        | some (u :: _) =>
            (⟨true, some u, none, some requestId⟩, cfg, ⟨0, 2, 1⟩)
        | _ =>
            (⟨false, none, some "No image generated by the model", none⟩, cfg, ⟨0, 2, 1⟩)

/-- `generateStyleMeWithRetry(request, maxRetries = 0, retryDelay = 0)`:
"Single attempt only to prevent credit waste" — it ignores both parameters
and delegates to one `generateStyleMe` call. -/
def generateStyleMeWithRetry (cfg : FalConfig) (st : StorageData) (w : FalGenWorld)
    (maxRetries : Nat) (retryDelay : Nat) : FalStyleMeResponse × FalConfig × NetCalls :=
  generateStyleMe cfg st w

end FalService

/-! ## Alternate provider client (`src/services/openrouter.ts`)

The response-mining regexes
`/https?:\/\/[^\s]+\.(jpg|jpeg|png|gif|webp|bmp|tiff)/gi` (with `[^\s"]+`
in the full-response variant) and
`/data:image\/[^;]+;base64,([A-Za-z0-9+\/=]+)/gi` are embedded as executable
first-match scanners over the character list of the text. -/

/-- Case-insensitive test that `pat` is an initial segment of `s`. -/
def matchesCI : List Char → List Char → Bool
  | [], _ => true
  | _ :: _, [] => false
  | p :: ps, c :: cs => (p.toLower == c.toLower) && matchesCI ps cs

/-- Longest initial segment whose characters do not satisfy `stop`. -/
def takeRun (stop : Char → Bool) : List Char → List Char
  | [] => []
  | c :: cs => if stop c then [] else c :: takeRun stop cs

/-- Case-insensitive test that `suffix` ends `s`. -/
def endsWithCI (suffix : List Char) (s : List Char) : Bool :=
  suffix.length ≤ s.length && matchesCI suffix (s.drop (s.length - suffix.length))

/-- The image-extension alternation of the URL regex. -/
def imageExts : List String := ["jpg", "jpeg", "png", "gif", "webp", "bmp", "tiff"]

/-- A candidate match of the URL regex: at least one character between the
scheme and the dot, and an image extension at the very end. -/
def urlCandidateOk (schemeLen : Nat) (p : List Char) : Bool :=
  imageExts.any (fun e => schemeLen + 2 + e.length ≤ p.length && endsWithCI ('.' :: e.data) p)

/-- Longest prefix `run.take k` (for `k` down from the given bound)
satisfying `pred` — the greedy backtracking of `[^\s]+` over the non-space
run. -/
def findLongest (run : List Char) (pred : List Char → Bool) : Nat → Option (List Char)
  | 0 => none
  | Nat.succ k =>
      let p := run.take (k + 1)
      if pred p then some p else findLongest run pred k

/-- Match of the URL regex anchored at the current position (which starts
with a scheme of length `schemeLen`); `stopQuote` selects the `[^\s"]+`
variant used on the serialized full response. -/
def urlAtHere (stopQuote : Bool) (schemeLen : Nat) (s : List Char) : Option (List Char) :=
  let run := takeRun (fun c => c.isWhitespace || (stopQuote && c == '"')) s
  findLongest run (urlCandidateOk schemeLen) run.length

/-- First (leftmost) match of the image-URL regex, i.e. `match(...)[0]`. -/
def firstUrlMatch (stopQuote : Bool) : List Char → Option String
  | [] => none
  | c :: cs =>
      let here :=
        if matchesCI "https://".data (c :: cs) then urlAtHere stopQuote 8 (c :: cs)
        else if matchesCI "http://".data (c :: cs) then urlAtHere stopQuote 7 (c :: cs)
        else none
      match here with
      | some m => some (String.mk m)
      | none => firstUrlMatch stopQuote cs

/-- The base64 alphabet `[A-Za-z0-9+/=]`. -/
def isB64Char (c : Char) : Bool :=
  c.isAlphanum || c == '+' || c == '/' || c == '='

/-- Match of the base64 data-URL regex anchored at the current position
(which starts with `data:image/`, 11 characters). -/
def b64AtHere (s : List Char) : Option (List Char) :=
  let rest := s.drop 11
  let mid := takeRun (fun c => c == ';') rest
  if mid.isEmpty then none
  else
    let afterMid := rest.drop mid.length
    if matchesCI ";base64,".data afterMid then
      let payload := takeRun (fun c => !isB64Char c) (afterMid.drop 8)
      if payload.isEmpty then none
      else some (s.take (11 + mid.length + 8 + payload.length))
    else none

/-- First (leftmost) match of the base64 data-URL regex. -/
def firstB64Match : List Char → Option String
  | [] => none
  | c :: cs =>
      if matchesCI "data:image/".data (c :: cs) then
        match b64AtHere (c :: cs) with
        | some m => some (String.mk m)
        | none => firstB64Match cs
      else firstB64Match cs

/-- `TryOnResponse` (the `requestId` field, a timestamp-and-random tag that
no claim mentions, is not tracked). -/
structure TryOnResponse where
  success : Bool
  imageUrl : Option String
  error : Option String
deriving Repr, DecidableEq

/-- The in-memory `OpenRouterConfig`. -/
structure ORConfig where
  apiKey : Value
  baseUrl : String
  model : String

/-- The constructor's initial OpenRouter config. -/
def orInitialConfig : ORConfig :=
  { apiKey := Value.vStr "", baseUrl := "https://openrouter.ai/api/v1",
    model := "google/gemini-2.5-flash-image-preview" }

/-- The parts of the parsed chat-completions JSON that `generateTryOn`
consults: `data.choices?.[0]?.message?.content` (empty string when absent —
both are falsy), `data.usage?.completion_tokens_details?.image_tokens`
(0 when absent), and `JSON.stringify(data)`. -/
structure ORData where
  content : String
  imageTokens : Nat
  fullText : String
deriving Repr, DecidableEq

/-- External world of one `generateTryOn` call: image validation or base64
conversion throws, `fetch` throws, the response is non-ok with the given
status and error message, or the response is ok with the given body. -/
inductive ORWorld where
  | validateFail (msg : String)
  | fetchFail (msg : String)
  | httpError (status : Nat) (msg : String)
  | httpOk (data : ORData)
deriving Repr, DecidableEq

namespace OpenRouterService

/-- `loadApiKey()` of the OpenRouter client: same truthy-guarded adoption of
the `openrouter_api_key` setting as the fal client. -/
def loadApiKey (cfg : ORConfig) (st : StorageData) : ORConfig :=
  let apiKey := st.getSetting "openrouter_api_key"
  if apiKey.truthy then { cfg with apiKey := apiKey } else cfg

/-- `setApiKey(apiKey)`. -/
def setApiKey (cfg : ORConfig) (st : StorageData) (apiKey : String) :
    ORConfig × StorageData :=
  ({ cfg with apiKey := Value.vStr apiKey },
    st.setSetting "openrouter_api_key" (Value.vStr apiKey))

/-- `clearApiKey()`. -/
def clearApiKey (cfg : ORConfig) (st : StorageData) : ORConfig × StorageData :=
  ({ cfg with apiKey := Value.vStr "" }, st.deleteSetting "openrouter_api_key")

/-- The hardcoded stock-photo URLs of `mockTryOnResponse` ("Mock successful
try-on results with fashion/clothing focus"). -/
def mockResults : List String :=
  [ "https://images.unsplash.com/photo-1515372039744-b8f02a3ae446?w=400&h=600&fit=crop",
    "https://images.unsplash.com/photo-1490725263030-1f0521cec8ec?w=400&h=600&fit=crop",
    "https://images.unsplash.com/photo-1529139574466-a303027c1d8b?w=400&h=600&fit=crop",
    "https://images.unsplash.com/photo-1524504388940-b1c1722653e1?w=400&h=600&fit=crop",
    "https://images.unsplash.com/photo-1507003211169-0a1dd7228f2d?w=400&h=600&fit=crop" ]

/-- `mockTryOnResponse(request, aiAnalysis?)`: the two `Math.random()` draws
are the inputs `q1` (failure roll, `< 0.1` simulates a mock error) and `q2`
(index roll, `Math.floor(q2 * 5)` picks the stock photo); both lie in
`[0, 1)` in the source. -/
def mockTryOnResponse (q1 q2 : Rat) : TryOnResponse :=
  if q1 < (1 : Rat) / 10 then
    ⟨false, none, some "Mock API error for testing purposes"⟩
  else
    ⟨true, some (mockResults.getD (Int.floor (q2 * 5)).toNat ""), none⟩

/-- `generateTryOn(request)`: reload the key (missing key throws, caught as a
plain failure); validation/encoding failures are caught before any network
call; one POST to `/chat/completions` otherwise.  On an ok response, mine
`message.content` with the URL regex, then the base64 regex; on no match,
when image tokens were reported, re-mine `JSON.stringify(data)` with the
quote-aware URL regex (the base64 re-mine of the source is computed but its
result is never returned); otherwise fall back to `mockTryOnResponse`.  With
falsy content and no image tokens, the thrown
`'No response received from AI model'` is caught as a failure. -/
def generateTryOn (cfg : ORConfig) (st : StorageData) (w : ORWorld) (q1 q2 : Rat) :
    TryOnResponse × ORConfig × NetCalls :=
  let cfg := loadApiKey cfg st
  if !cfg.apiKey.truthy then
    (⟨false, none,
      some "OpenRouter API key is not configured. Please add your API key in Settings."⟩,
      cfg, ⟨0, 0, 0⟩)
  else
    match w with
    | .validateFail msg => (⟨false, none, some msg⟩, cfg, ⟨0, 0, 0⟩)
    | .fetchFail msg => (⟨false, none, some msg⟩, cfg, ⟨0, 0, 1⟩)
    | .httpError status msg =>
        (⟨false, none, some s!"API request failed: {status} - {msg}"⟩, cfg, ⟨0, 0, 1⟩)
    | .httpOk data =>
        if data.content != "" then
          match firstUrlMatch false data.content.data with
          | some u => (⟨true, some u, none⟩, cfg, ⟨0, 0, 1⟩)
          | none =>
            match firstB64Match data.content.data with
            | some b => (⟨true, some b, none⟩, cfg, ⟨0, 0, 1⟩)
            | none =>
              if data.imageTokens > 0 then
                match firstUrlMatch true data.fullText.data with
                | some u => (⟨true, some u, none⟩, cfg, ⟨0, 0, 1⟩)
                | none => (mockTryOnResponse q1 q2, cfg, ⟨0, 0, 1⟩)
              else (mockTryOnResponse q1 q2, cfg, ⟨0, 0, 1⟩)
        else if data.imageTokens > 0 then
          match firstUrlMatch true data.fullText.data with
          | some u => (⟨true, some u, none⟩, cfg, ⟨0, 0, 1⟩)
          | none => (mockTryOnResponse q1 q2, cfg, ⟨0, 0, 1⟩)
        else
          (⟨false, none, some "No response received from AI model"⟩, cfg, ⟨0, 0, 1⟩)

/-- One attempt per remaining unit of `fuel` (`maxRetries - attempt + 1`),
threading the per-attempt world `ws` and random draws `qs`; on exhaustion,
the `'Failed after N attempts. Last error: ...'` failure (a `null` last
error prints as `undefined`). -/
def tryOnLoop (st : StorageData) (ws : Nat → ORWorld) (qs : Nat → Rat × Rat)
    (maxRetries : Nat) :
    Nat → Nat → ORConfig → Option String → TryOnResponse × ORConfig × NetCalls
  | 0, _, cfg, lastErr =>
      (⟨false, none,
        some (s!"Failed after {maxRetries} attempts. Last error: "
          ++ (lastErr.getD "undefined"))⟩, cfg, ⟨0, 0, 0⟩)
  | Nat.succ fuel, attempt, cfg, _ =>
      let r := generateTryOn cfg st (ws attempt) (qs attempt).1 (qs attempt).2
      if r.1.success then r
      else
        let lastErr := some ((r.1.error).getD "Unknown error")
        let rest := tryOnLoop st ws qs maxRetries fuel (attempt + 1) r.2.1 lastErr
        (rest.1, rest.2.1,
          ⟨r.2.2.probes + rest.2.2.probes, r.2.2.uploads + rest.2.2.uploads,
            r.2.2.genCalls + rest.2.2.genCalls⟩)

/-- `generateTryOnWithRetry(request, maxRetries = 3, retryDelay = 1000)`:
attempt `generateTryOn` up to `maxRetries` times, returning the first
success; the exponential-backoff delays do not affect the result. -/
def generateTryOnWithRetry (cfg : ORConfig) (st : StorageData) (ws : Nat → ORWorld)
    (qs : Nat → Rat × Rat) (maxRetries : Nat) (retryDelay : Nat) :
    TryOnResponse × ORConfig × NetCalls :=
  tryOnLoop st ws qs maxRetries maxRetries 1 cfg none

end OpenRouterService

/-! ## Basic lemmas about the store -/

/-- Writing a key makes it the one `lookup` finds. -/
theorem lookup_setEntry (l : List (String × Value)) (k : String) (v : Value) :
    (setEntry l k v).lookup k = some v := by
  induction l with
  | nil => simp [setEntry, List.lookup]
  | cons p rest ih =>
      obtain ⟨k1, v1⟩ := p
      by_cases h : k1 = k
      · subst h; simp [setEntry, List.lookup]
      · have hb : (k == k1) = false := beq_eq_false_iff_ne.mpr (Ne.symm h)
        simp [setEntry, h, List.lookup, hb, ih]

/-- After filtering a key out, `lookup` no longer finds it. -/
theorem lookup_filter_out (l : List (String × Value)) (k : String) :
    (l.filter (fun p => p.1 != k)).lookup k = none := by
  induction l with
  | nil => rfl
  | cons p rest ih =>
      obtain ⟨k1, v1⟩ := p
      by_cases h : k1 = k
      · subst h; simp [List.filter_cons, ih]
      · have hb : (k == k1) = false := beq_eq_false_iff_ne.mpr (Ne.symm h)
        have hb2 : (k1 != k) = true := bne_iff_ne.mpr h
        simp [List.filter_cons, hb2, List.lookup, hb, ih]

/-- A deleted setting reads back as the `null` sentinel. -/
theorem getSetting_deleteSetting (st : StorageData) (k : String) :
    (st.deleteSetting k).getSetting k = Value.vNull := by
  simp [StorageData.deleteSetting, StorageData.getSetting, lookup_filter_out]

/-- Filtering a key out of a list that does not contain it changes nothing. -/
theorem filter_out_absent (l : List (String × Value)) (k : String)
    (h : l.lookup k = none) : l.filter (fun p => p.1 != k) = l := by
  induction l with
  | nil => rfl
  | cons p rest ih =>
      obtain ⟨k1, v1⟩ := p
      by_cases hk : k = k1
      · subst hk; simp [List.lookup] at h
      · have hb : (k == k1) = false := beq_eq_false_iff_ne.mpr hk
        have hb2 : (k1 != k) = true := bne_iff_ne.mpr (Ne.symm hk)
        have hr : rest.lookup k = none := by
          simp only [List.lookup, hb] at h
          exact h
        simp [List.filter_cons, hb2, ih hr]

/-- `List.filter` is idempotent. -/
theorem filter_idem {α : Type} (p : α → Bool) (l : List α) :
    (l.filter p).filter p = l.filter p := by
  induction l with
  | nil => rfl
  | cons a t ih => by_cases h : p a <;> simp [List.filter_cons, h, ih]

/-- Appending to a string is injective in the appended part. -/
theorem string_append_cancel_left (a b c : String) (h : a ++ b = a ++ c) : b = c := by
  have hd : a.data ++ b.data = a.data ++ c.data := congrArg String.data h
  have hbc : b.data = c.data := List.append_cancel_left hd
  calc b = String.mk b.data := rfl
    _ = String.mk c.data := by rw [hbc]
    _ = c := rfl

/-! ## Claim C7 — `setSetting` / `getSetting` round trip -/

/-- C7 counterexample: storing the serializable boolean value `false` and
reading it back yields the `null` sentinel, not `false`, because
`getSetting` computes `settings[key] || null`. -/
theorem C7_counterexample :
    (initialData.setSetting "remember_me" (Value.vBool false)).getSetting "remember_me"
        = Value.vNull
      ∧ Value.vNull ≠ Value.vBool false :=
  ⟨rfl, fun h => Value.noConfusion h⟩

/-- C7 (corrected): after `setSetting(key, v)`, `getSetting(key)` returns `v`
when `v` is truthy (and the last write wins on repeated writes), but a falsy
`v` (`false`, `0`, `''`, `null`) collapses to the not-present sentinel
`null`; reading a never-written key returns `null` rather than raising. -/
theorem C7_amended_theorem (st : StorageData) (k : String) (v v0 : Value) :
    ((st.setSetting k v).getSetting k = if v.truthy then v else Value.vNull)
      ∧ (((st.setSetting k v0).setSetting k v).getSetting k
          = if v.truthy then v else Value.vNull)
      ∧ initialData.getSetting k = Value.vNull := by
  refine ⟨?_, ?_, ?_⟩
  · simp [StorageData.setSetting, StorageData.getSetting, lookup_setEntry]
  · simp [StorageData.setSetting, StorageData.getSetting, lookup_setEntry]
  · simp [StorageData.getSetting, initialData, List.lookup]

/-! ## Claim C8 — `clearCache` removes exactly the `result` items -/

/-- No `result`-typed item survives the double filter. -/
theorem filter_result_after_clear (l : List GalleryItem) :
    (l.filter (fun item => item.type != ItemType.result)).filter
        (fun item => item.type == ItemType.result) = [] := by
  induction l with
  | nil => rfl
  | cons a t ih =>
      by_cases h : a.type = ItemType.result
      · simp [List.filter_cons, h, ih]
      · simp [List.filter_cons, h, ih]

/-- C8 (confirmed): `clearCache()` leaves no `result`-typed gallery item,
keeps every `user`/`outfit` item, adds nothing, and does not touch the
settings or the user profile. -/
theorem C8_theorem (st : StorageData) :
    ((st.clearCache).getGalleryItems (some ItemType.result) = [])
      ∧ (∀ i ∈ (st.clearCache).galleryItems, i.type ≠ ItemType.result)
      ∧ (∀ i ∈ st.galleryItems, i.type ≠ ItemType.result → i ∈ (st.clearCache).galleryItems)
      ∧ (∀ i ∈ (st.clearCache).galleryItems, i ∈ st.galleryItems)
      ∧ (st.clearCache).settings = st.settings
      ∧ (st.clearCache).userProfile = st.userProfile := by
  refine ⟨?_, ?_, ?_, ?_, rfl, rfl⟩
  · simpa [StorageData.clearCache, StorageData.getGalleryItems]
      using filter_result_after_clear st.galleryItems
  · intro i hi
    have := List.mem_filter.mp hi
    simpa using this.2
  · intro i hi hne
    exact List.mem_filter.mpr ⟨hi, by simpa using hne⟩
  · intro i hi
    exact (List.mem_filter.mp hi).1

/-- A concrete store exercising the C8 frame condition. -/
def c8Store : StorageData :=
  { settings := [("theme", Value.vStr "dark")],
    galleryItems :=
      [ ⟨"1-a", "user.jpg", ItemType.user, 1⟩,
        ⟨"2-b", "outfit.jpg", ItemType.outfit, 2⟩,
        ⟨"3-c", "result.jpg", ItemType.result, 3⟩ ],
    userProfile := none }

/-- C8 witness: the `user` item of the concrete store survives `clearCache`. -/
theorem C8_witness :
    (⟨"1-a", "user.jpg", ItemType.user, 1⟩ : GalleryItem) ∈ (c8Store.clearCache).galleryItems :=
  (C8_theorem c8Store).2.2.1 ⟨"1-a", "user.jpg", ItemType.user, 1⟩ (by decide) (by decide)

/-! ## Claim C9 — `saveGalleryItem` id freshness -/

/-- C9 counterexample: two saves in the same millisecond whose random draws
coincide produce the very same id twice — the id is never checked against
the existing list, so uniqueness is not guaranteed. -/
theorem C9_counterexample :
    (((initialData.saveGalleryItem "photo.jpg" ItemType.user 100 "k3j9x2q").1).saveGalleryItem
          "photo.jpg" ItemType.user 100 "k3j9x2q").1.galleryItems.map GalleryItem.id
        = ["100-k3j9x2q", "100-k3j9x2q"]
      ∧ ¬ (["100-k3j9x2q", "100-k3j9x2q"] : List String).Nodup := by
  exact ⟨rfl, by decide⟩

/-- C9 (corrected): `saveGalleryItem` appends one item with id
`${now}-${suffix}` (preserving insertion order) and returns that id; ids do
not rely solely on the timestamp — two same-millisecond calls whose random
suffixes differ get distinct ids — but nothing prevents a collision when the
timestamp and the random suffix both repeat. -/
theorem C9_amended_theorem (st : StorageData) (uri : String) (t : ItemType)
    (now : Nat) (r1 r2 : String) :
    ((st.saveGalleryItem uri t now r1).1.galleryItems
        = st.galleryItems ++ [⟨galleryId now r1, uri, t, now⟩])
      ∧ (st.saveGalleryItem uri t now r1).2 = galleryId now r1
      ∧ (r1 ≠ r2 → galleryId now r1 ≠ galleryId now r2) := by
  refine ⟨rfl, rfl, ?_⟩
  intro hne he
  apply hne
  have h1 : toString now ++ "-" ++ r1 = toString now ++ "-" ++ r2 := he
  exact string_append_cancel_left (toString now ++ "-") r1 r2 h1

/-- C9 witness: distinct same-millisecond suffixes give distinct ids. -/
theorem C9_witness : galleryId 100 "abc" ≠ galleryId 100 "abd" :=
  (C9_amended_theorem initialData "photo.jpg" ItemType.user 100 "abc" "abd").2.2 (by decide)

/-! ## Claim C10 — idempotence of the delete operations -/

/-- C10 (confirmed): `deleteSetting` and `deleteGalleryItem` are idempotent,
and deleting an absent key or id leaves the store unchanged (and raises
nothing — both are total). -/
theorem C10_theorem (st : StorageData) (k id : String) :
    ((st.deleteSetting k).deleteSetting k = st.deleteSetting k)
      ∧ ((st.deleteGalleryItem id).deleteGalleryItem id = st.deleteGalleryItem id)
      ∧ (st.settings.lookup k = none → st.deleteSetting k = st)
      ∧ ((∀ i ∈ st.galleryItems, i.id ≠ id) → st.deleteGalleryItem id = st) := by
  obtain ⟨s, g, p⟩ := st
  refine ⟨?_, ?_, ?_, ?_⟩
  · simp [StorageData.deleteSetting, filter_idem]
  · simp [StorageData.deleteGalleryItem, filter_idem]
  · intro h
    simp only [StorageData.deleteSetting] at *
    simp [filter_out_absent s k h]
  · intro h
    simp only [StorageData.deleteGalleryItem]
    have : g.filter (fun item => item.id != id) = g := by
      apply List.filter_eq_self.mpr
      intro a ha
      simpa using h a ha
    simp [this]

/-- A concrete store for the C10 witness. -/
def c10Store : StorageData :=
  { settings := [("theme", Value.vStr "dark")],
    galleryItems := [⟨"1-a", "user.jpg", ItemType.user, 1⟩],
    userProfile := none }

/-- C10 witness: deleting an absent setting key and an absent gallery id
leaves the concrete store untouched. -/
theorem C10_witness :
    c10Store.deleteSetting "missing_key" = c10Store
      ∧ c10Store.deleteGalleryItem "missing-id" = c10Store :=
  ⟨(C10_theorem c10Store "missing_key" "missing-id").2.2.1 rfl,
   (C10_theorem c10Store "missing_key" "missing-id").2.2.2 (by decide)⟩

/-! ## Claim C3 — key re-synchronization before every use -/

/-- Config and store after `setApiKey('SECRETKEY')` on a fresh client. -/
def c3Setup : FalConfig × StorageData :=
  FalService.setApiKey falInitialConfig initialData "SECRETKEY"

/-- The store after the key setting is deleted externally (through the
store's own `deleteSetting`, as a settings screen would). -/
def c3DeletedStore : StorageData := c3Setup.2.deleteSetting "fal_api_key"

/-- C3 counterexample: after the external deletion the setting reads back as
absent, yet `getApiKeyFromStorage` still reports the stale in-memory key,
and `generateStyleMe` proceeds to the provider with it (one generation call)
instead of treating the key as absent. -/
theorem C3_counterexample :
    c3DeletedStore.getSetting "fal_api_key" = Value.vNull
      ∧ (FalService.getApiKeyFromStorage c3Setup.1 c3DeletedStore).1 = Value.vStr "SECRETKEY"
      ∧ Value.vStr "SECRETKEY" ≠ Value.vNull
      ∧ (FalService.generateStyleMe c3Setup.1 c3DeletedStore
          (.runFail "provider rejected request")).2.2.genCalls = 1 :=
  ⟨rfl, rfl, fun h => Value.noConfusion h, rfl⟩

/-- C3 (corrected): every public operation first re-reads the stored key and
adopts it when truthy — so an externally written (truthy) key is always
picked up — but when the setting is absent (deleted) or falsy the in-memory
copy is kept unchanged, so an external deletion does not propagate and the
client keeps using its stale key. -/
theorem C3_amended_theorem (cfg : FalConfig) (st : StorageData) (k : String) :
    ((FalService.loadApiKey cfg st).apiKey
        = if (st.getSetting "fal_api_key").truthy then st.getSetting "fal_api_key"
          else cfg.apiKey)
      ∧ (FalService.getApiKeyFromStorage cfg st).1 = (FalService.loadApiKey cfg st).apiKey
      ∧ (k ≠ "" →
          (FalService.loadApiKey cfg (st.setSetting "fal_api_key" (Value.vStr k))).apiKey
            = Value.vStr k)
      ∧ (st.getSetting "fal_api_key" = Value.vNull →
          (FalService.loadApiKey cfg st).apiKey = cfg.apiKey) := by
  refine ⟨?_, rfl, ?_, ?_⟩
  · by_cases h : (st.getSetting "fal_api_key").truthy <;> simp [FalService.loadApiKey, h]
  · intro hk
    have hb : (k != "") = true := bne_iff_ne.mpr hk
    simp [FalService.loadApiKey, StorageData.setSetting, StorageData.getSetting,
      lookup_setEntry, Value.truthy, hb]
  · intro h
    simp [FalService.loadApiKey, h, Value.truthy]

/-- C3 witness: a truthy key written externally is adopted on the next load. -/
theorem C3_witness :
    (FalService.loadApiKey falInitialConfig
        (initialData.setSetting "fal_api_key" (Value.vStr "newkey"))).apiKey
      = Value.vStr "newkey" :=
  (C3_amended_theorem falInitialConfig initialData "newkey").2.2.1 (by decide)

/-! ## Claim C4 — `testConnection` classification -/

/-- A store holding a well-formed fal key. -/
def c4Store : StorageData := initialData.setSetting "fal_api_key" (Value.vStr "valid-key_123")

/-- A store holding a configured but malformed fal key (spaces and `!` fail
the `^[a-zA-Z0-9\-_]+$` gate). -/
def c4BadStore : StorageData := initialData.setSetting "fal_api_key" (Value.vStr "bad key!")

/-- C4 counterexample: a 404 probe answer — a non-2xx response that is not an
auth rejection — is classified as connected (success), not as
service-unavailable; and a configured but malformed key produces a typed
failure with no probe at all, where the claim promises a probe whenever a
key is configured. -/
theorem C4_counterexample :
    (FalService.testConnection falInitialConfig c4Store (.status 404)).1
        = ⟨true, none⟩
      ∧ ¬ (200 ≤ 404 ∧ 404 < 300)
      ∧ (FalService.testConnection falInitialConfig c4BadStore (.status 200)).1
        = ⟨false, some "Invalid API key format"⟩
      ∧ (FalService.testConnection falInitialConfig c4BadStore (.status 200)).2.2
        = ⟨0, 0, 0⟩ :=
  ⟨rfl, by decide, rfl, rfl⟩

/-- C4 (corrected): with no truthy key, `testConnection` fails fast with the
typed "API key is required" reason and no network traffic; with a configured
but malformed key it fails fast with "Invalid API key format", again without
a probe; with a well-formed key it issues exactly one lightweight probe and
no generation call, classifying 401 as invalid key, every other status in
`[200, 500)` (2xx or not) as connected, any remaining status as service
unavailable, and a thrown network error as a failure carrying its message. -/
theorem C4_amended_theorem (cfg : FalConfig) (st : StorageData)
    (probe : FalService.ProbeOutcome) (code : Nat) (msg : String) :
    ((FalService.loadApiKey cfg st).apiKey.truthy = false →
        FalService.testConnection cfg st probe
          = (⟨false, some "API key is required"⟩, FalService.loadApiKey cfg st, ⟨0, 0, 0⟩))
      ∧ ((FalService.loadApiKey cfg st).apiKey.truthy = true →
          FalService.keyFormatOk (FalService.loadApiKey cfg st).apiKey = false →
          FalService.testConnection cfg st probe
            = (⟨false, some "Invalid API key format"⟩, FalService.loadApiKey cfg st, ⟨0, 0, 0⟩))
      ∧ (FalService.keyFormatOk (FalService.loadApiKey cfg st).apiKey = true →
          ((FalService.testConnection cfg st probe).2.2 = ⟨1, 0, 0⟩
            ∧ (FalService.testConnection cfg st (.status 401)).1
              = ⟨false, some "Invalid API key"⟩
            ∧ (code ≠ 401 → 200 ≤ code → code < 500 →
                (FalService.testConnection cfg st (.status code)).1 = ⟨true, none⟩)
            ∧ (code < 200 ∨ 500 ≤ code →
                (FalService.testConnection cfg st (.status code)).1
                  = ⟨false, some s!"Service unavailable (HTTP {code})"⟩)
            ∧ (FalService.testConnection cfg st (.networkError msg)).1
              = ⟨false, some msg⟩)) := by
  have htr : ∀ v : Value, FalService.keyFormatOk v = true → v.truthy = true := by
    intro v hv
    cases v with
    | vStr s =>
        have := (Bool.and_eq_true _ _).mp hv
        simpa [Value.truthy] using this.1
    | vNull => simp [FalService.keyFormatOk] at hv
    | vBool b => simp [FalService.keyFormatOk] at hv
    | vNum n => simp [FalService.keyFormatOk] at hv
    | vObj fields => simp [FalService.keyFormatOk] at hv
  refine ⟨?_, ?_, ?_⟩
  · intro h
    simp [FalService.testConnection, h]
  · intro h hf
    simp [FalService.testConnection, h, hf]
  · intro hf
    have h := htr _ hf
    refine ⟨?_, ?_, ?_, ?_, ?_⟩
    · cases probe with
      | status c =>
          by_cases h401 : c == 401
          · simp [FalService.testConnection, h, hf, h401]
          · by_cases hrange : 200 ≤ c ∧ c < 500
            · simp [FalService.testConnection, h, hf, h401, hrange.1, hrange.2]
            · have : ¬ (200 ≤ c && c < 500) = true := by
                simp only [Bool.and_eq_true, decide_eq_true_eq]
                exact fun hc => hrange ⟨hc.1, hc.2⟩
              simp [FalService.testConnection, h, hf, h401, this]
      | networkError m => simp [FalService.testConnection, h, hf]
    · simp [FalService.testConnection, h, hf]
    · intro hne hlo hhi
      have hb : (code == 401) = false := by
        simp only [beq_eq_false_iff_ne]
        exact hne
      simp [FalService.testConnection, h, hf, hb, hlo, hhi]
    · intro hout
      by_cases h401 : code = 401
      · subst h401
        rcases hout with hlt | hge
        · omega
        · omega
      · have hb : (code == 401) = false := by
          simp only [beq_eq_false_iff_ne]
          exact h401
        have : ¬ (200 ≤ code && code < 500) = true := by
          simp only [Bool.and_eq_true, decide_eq_true_eq]
          rintro ⟨hlo, hhi⟩
          rcases hout with hlt | hge
          · omega
          · omega
        simp [FalService.testConnection, h, hf, hb, this]
    · simp [FalService.testConnection, h, hf]

/-- C4 witness: on the concrete well-formed-key store, a 401 probe is
classified as an invalid key (and, per the same theorem, exactly one probe
and zero generation calls happen). -/
theorem C4_witness :
    (FalService.testConnection falInitialConfig c4Store (.status 401)).2.2 = ⟨1, 0, 0⟩
      ∧ (FalService.testConnection falInitialConfig c4Store (.status 401)).1
        = ⟨false, some "Invalid API key"⟩ :=
  ⟨((C4_amended_theorem falInitialConfig c4Store (.status 401) 401 "x").2.2 (by decide)).1,
   ((C4_amended_theorem falInitialConfig c4Store (.status 401) 401 "x").2.2 (by decide)).2.1⟩

/-! ## Claim C5 — `clearApiKey` then `generate` -/

/-- C5 (confirmed): after `clearApiKey()` (and no re-set), any
`generateStyleMe` call fails with the missing-credential configuration
error, performing no upload and no generation call, whatever the outside
world would have answered. -/
theorem C5_theorem (cfg : FalConfig) (st : StorageData) (w : FalService.FalGenWorld) :
    FalService.generateStyleMe (FalService.clearApiKey cfg st).1
        (FalService.clearApiKey cfg st).2 w
      = (⟨false, none,
          some "Virtual try-on failed: Fal.ai API key is not configured. Please add your API key in Settings.",
          none⟩,
         (FalService.clearApiKey cfg st).1, ⟨0, 0, 0⟩) := by
  simp [FalService.clearApiKey, FalService.generateStyleMe, FalService.loadApiKey,
    getSetting_deleteSetting, Value.truthy]

/-! ## Claim C1 — single-attempt policy -/

/-- Reloading the key twice from the same store is the same as once. -/
theorem ORloadApiKey_idem (cfg : ORConfig) (st : StorageData) :
    OpenRouterService.loadApiKey (OpenRouterService.loadApiKey cfg st) st
      = OpenRouterService.loadApiKey cfg st := by
  by_cases h : (st.getSetting "openrouter_api_key").truthy
    <;> simp [OpenRouterService.loadApiKey, h]

/-- With a truthy key, a non-ok HTTP answer makes `generateTryOn` fail with
the formatted message after exactly one generation call. -/
theorem generateTryOn_httpError (cfg : ORConfig) (st : StorageData)
    (status : Nat) (emsg : String) (q1 q2 : Rat)
    (h : (OpenRouterService.loadApiKey cfg st).apiKey.truthy = true) :
    OpenRouterService.generateTryOn cfg st (.httpError status emsg) q1 q2
      = (⟨false, none, some s!"API request failed: {status} - {emsg}"⟩,
          OpenRouterService.loadApiKey cfg st, ⟨0, 0, 1⟩) := by
  simp [OpenRouterService.generateTryOn, h]

/-- Against a provider that always answers a non-ok status, the retry loop
issues one generation call per unit of fuel. -/
theorem tryOnLoop_allFail_genCalls (st : StorageData) (status : Nat) (emsg : String)
    (qs : Nat → Rat × Rat) (mr : Nat) :
    ∀ (fuel attempt : Nat) (cfg : ORConfig) (le : Option String),
      (OpenRouterService.loadApiKey cfg st).apiKey.truthy = true →
      (OpenRouterService.tryOnLoop st (fun _ => .httpError status emsg) qs mr
          fuel attempt cfg le).2.2.genCalls = fuel := by
  intro fuel
  induction fuel with
  | zero => intro attempt cfg le h; rfl
  | succ n ih =>
      intro attempt cfg le h
      have h2 : (OpenRouterService.loadApiKey
          (OpenRouterService.loadApiKey cfg st) st).apiKey.truthy = true := by
        rw [ORloadApiKey_idem]; exact h
      have hstep := generateTryOn_httpError cfg st status emsg (qs attempt).1 (qs attempt).2 h
      have hrest := ih (attempt + 1) (OpenRouterService.loadApiKey cfg st)
        (some s!"API request failed: {status} - {emsg}") h2
      simp [OpenRouterService.tryOnLoop, hstep, hrest]
      omega

/-- C1 (corrected): the canonical client's `generateStyleMeWithRetry` really
is single-attempt — with a configured key and valid (uploadable) images it
issues exactly one generation call whatever `maxRetries`/`retryDelay` say
and even when that call fails — but the alternate client's
`generateTryOnWithRetry` retries automatically: with its default
`maxRetries = 3` and a provider whose generation endpoint always fails, it
issues exactly three generation calls. -/
theorem C1_amended_theorem (cfg : FalConfig) (orCfg : ORConfig) (st st2 : StorageData)
    (w : FalService.FalGenWorld) (mr rd : Nat) (qs : Nat → Rat × Rat)
    (status : Nat) (emsg : String) :
    ((FalService.loadApiKey cfg st).apiKey.truthy = true →
        FalService.FalGenWorld.callsProvider w = true →
        (FalService.generateStyleMeWithRetry cfg st w mr rd).2.2.genCalls = 1)
      ∧ ((OpenRouterService.loadApiKey orCfg st2).apiKey.truthy = true →
          (OpenRouterService.generateTryOnWithRetry orCfg st2
              (fun _ => .httpError status emsg) qs 3 1000).2.2.genCalls = 3) := by
  constructor
  · intro h hw
    cases w with
    | uploadFail m => simp [FalService.FalGenWorld.callsProvider] at hw
    | runFail m =>
        simp [FalService.generateStyleMeWithRetry, FalService.generateStyleMe, h]
    | runOk images rid =>
        cases images with
        | none => simp [FalService.generateStyleMeWithRetry, FalService.generateStyleMe, h]
        | some l =>
            cases l with
            | nil => simp [FalService.generateStyleMeWithRetry, FalService.generateStyleMe, h]
            | cons a t =>
                simp [FalService.generateStyleMeWithRetry, FalService.generateStyleMe, h]
  · intro h
    exact tryOnLoop_allFail_genCalls st2 status emsg qs 3 3 1 orCfg none h

/-- A store with a configured OpenRouter key. -/
def c1Store : StorageData := initialData.setSetting "openrouter_api_key" (Value.vStr "sk-or-c1")

/-- A store with a configured fal key. -/
def c1FalStore : StorageData := initialData.setSetting "fal_api_key" (Value.vStr "fal-c1")

/-- C1 counterexample: with a valid key and valid images, one invocation of
the alternate client's `generateTryOnWithRetry` (default `maxRetries = 3`)
against an always-failing provider issues three generation calls, not one. -/
theorem C1_counterexample :
    (OpenRouterService.generateTryOnWithRetry orInitialConfig c1Store
        (fun _ => .httpError 500 "Internal Server Error") (fun _ => (0, 0)) 3 1000).2.2.genCalls
      = 3
    ∧ (3 : Nat) ≠ 1 :=
  ⟨rfl, by decide⟩

/-- C1 witness: one concrete failing attempt on the canonical client counts
one generation call; the concrete always-failing alternate client counts
three. -/
theorem C1_witness :
    (FalService.generateStyleMeWithRetry falInitialConfig c1FalStore
        (.runFail "provider down") 0 0).2.2.genCalls = 1
      ∧ (OpenRouterService.generateTryOnWithRetry orInitialConfig c1Store
          (fun _ => .httpError 503 "unavailable") (fun _ => (0, 0)) 3 1000).2.2.genCalls = 3 :=
  ⟨(C1_amended_theorem falInitialConfig orInitialConfig c1FalStore c1Store
      (.runFail "provider down") 0 0 (fun _ => (0, 0)) 503 "unavailable").1 (by decide) rfl,
   (C1_amended_theorem falInitialConfig orInitialConfig c1FalStore c1Store
      (.runFail "provider down") 0 0 (fun _ => (0, 0)) 503 "unavailable").2 (by decide)⟩

/-! ## Claim C2 — response-parsing strategy order -/

/-- A store with a configured OpenRouter key for the parsing claims. -/
def c2Store : StorageData := initialData.setSetting "openrouter_api_key" (Value.vStr "sk-or-key2")

/-- An HTTP-success body in which no strategy finds an image. -/
def c2NoImageData : ORData :=
  { content := "I am unable to attach pictures in this chat.",
    imageTokens := 0, fullText := "irrelevant" }

/-- C2 counterexample: on an HTTP-success response where the URL strategy,
the base64 strategy (and the structured field, which the alternate parser
does not even have) all fail, `generateTryOn` answers a fabricated success
— not a `NoImageProducedError`-classified failure. -/
theorem C2_counterexample :
    (OpenRouterService.generateTryOn orInitialConfig c2Store (.httpOk c2NoImageData)
        ((1 : Rat) / 2) ((1 : Rat) / 2)).1.success = true
      ∧ (OpenRouterService.generateTryOn orInitialConfig c2Store (.httpOk c2NoImageData)
          ((1 : Rat) / 2) ((1 : Rat) / 2)).1.error = none := by
  have hkey : (OpenRouterService.loadApiKey orInitialConfig c2Store).apiKey.truthy = true := by
    decide
  have hurl : firstUrlMatch false c2NoImageData.content.data = none := by decide
  have hb64 : firstB64Match c2NoImageData.content.data = none := by decide
  have hc : (c2NoImageData.content != "") = true := by decide
  have htok : c2NoImageData.imageTokens = 0 := rfl
  have hq : ¬ ((1 : Rat) / 2 < (1 : Rat) / 10) := by norm_num
  have hgen : (OpenRouterService.generateTryOn orInitialConfig c2Store (.httpOk c2NoImageData)
      ((1 : Rat) / 2) ((1 : Rat) / 2)).1
      = OpenRouterService.mockTryOnResponse ((1 : Rat) / 2) ((1 : Rat) / 2) := by
    simp [OpenRouterService.generateTryOn, hkey, hc, hurl, hb64, htok]
  have hm : OpenRouterService.mockTryOnResponse ((1 : Rat) / 2) ((1 : Rat) / 2)
      = ⟨true, some (OpenRouterService.mockResults.getD
          (Int.floor ((1 : Rat) / 2 * 5)).toNat ""), none⟩ := by
    unfold OpenRouterService.mockTryOnResponse
    rw [if_neg hq]
  refine ⟨?_, ?_⟩ <;> rw [hgen, hm]

/-- C2 (corrected): the canonical parser consults only the structured image
list (first url on success, a no-image failure when the list is absent or
empty); the alternate parser tries the URL pattern first, then the base64
pattern, returning the first match — but when neither matches (and no image
tokens are reported) it answers with `mockTryOnResponse` instead of a
no-image failure. -/
theorem C2_amended_theorem (cfg : FalConfig) (orCfg : ORConfig) (st st2 : StorageData)
    (url : String) (more : List String) (reqId : String) (d : ORData) (q1 q2 : Rat) :
    ((FalService.loadApiKey cfg st).apiKey.truthy = true →
        ((FalService.generateStyleMe cfg st (.runOk (some (url :: more)) reqId)).1
            = ⟨true, some url, none, some reqId⟩
          ∧ (FalService.generateStyleMe cfg st (.runOk none reqId)).1
            = ⟨false, none, some "No image generated by the model", none⟩
          ∧ (FalService.generateStyleMe cfg st (.runOk (some []) reqId)).1
            = ⟨false, none, some "No image generated by the model", none⟩))
      ∧ ((OpenRouterService.loadApiKey orCfg st2).apiKey.truthy = true →
          d.content ≠ "" →
          ((∀ u, firstUrlMatch false d.content.data = some u →
              (OpenRouterService.generateTryOn orCfg st2 (.httpOk d) q1 q2).1
                = ⟨true, some u, none⟩)
            ∧ (∀ b, firstUrlMatch false d.content.data = none →
                firstB64Match d.content.data = some b →
                (OpenRouterService.generateTryOn orCfg st2 (.httpOk d) q1 q2).1
                  = ⟨true, some b, none⟩)
            ∧ (firstUrlMatch false d.content.data = none →
                firstB64Match d.content.data = none →
                d.imageTokens = 0 →
                (OpenRouterService.generateTryOn orCfg st2 (.httpOk d) q1 q2).1
                  = OpenRouterService.mockTryOnResponse q1 q2))) := by
  constructor
  · intro h
    refine ⟨?_, ?_, ?_⟩ <;> simp [FalService.generateStyleMe, h]
  · intro h hc
    have hcb : (d.content != "") = true := bne_iff_ne.mpr hc
    refine ⟨?_, ?_, ?_⟩
    · intro u hu
      simp [OpenRouterService.generateTryOn, h, hcb, hu]
    · intro b hurl hb
      simp [OpenRouterService.generateTryOn, h, hcb, hurl, hb]
    · intro hurl hb htok
      simp [OpenRouterService.generateTryOn, h, hcb, hurl, hb, htok]

/-- An HTTP-success body whose text embeds an image URL. -/
def c2UrlData : ORData :=
  { content := "Composited result at https://cdn.example.com/tryon.png enjoy",
    imageTokens := 0, fullText := "irrelevant" }

/-- An HTTP-success body whose text embeds base64 image data. -/
def c2B64Data : ORData :=
  { content := "Inline data:image/jpeg;base64,QkFTRTY0 attached",
    imageTokens := 0, fullText := "irrelevant" }

/-- C2 witness: the amended parsing behaviour at three concrete canned
responses — embedded URL, embedded base64, and a structured fal list. -/
theorem C2_witness :
    (OpenRouterService.generateTryOn orInitialConfig c2Store (.httpOk c2UrlData) 0 0).1
        = ⟨true, some "https://cdn.example.com/tryon.png", none⟩
      ∧ (OpenRouterService.generateTryOn orInitialConfig c2Store (.httpOk c2B64Data) 0 0).1
        = ⟨true, some "data:image/jpeg;base64,QkFTRTY0", none⟩
      ∧ (FalService.generateStyleMe falInitialConfig c1FalStore
          (.runOk (some ["https://v3.fal.media/files/out.jpg"]) "req-1")).1
        = ⟨true, some "https://v3.fal.media/files/out.jpg", none, some "req-1"⟩ :=
  ⟨(((C2_amended_theorem falInitialConfig orInitialConfig c1FalStore c2Store
        "x" [] "r" c2UrlData 0 0).2 (by decide) (by decide)).1
      "https://cdn.example.com/tryon.png" (by decide)),
   (((C2_amended_theorem falInitialConfig orInitialConfig c1FalStore c2Store
        "x" [] "r" c2B64Data 0 0).2 (by decide) (by decide)).2.1
      "data:image/jpeg;base64,QkFTRTY0" (by decide) (by decide)),
   (((C2_amended_theorem falInitialConfig orInitialConfig c1FalStore c2Store
        "https://v3.fal.media/files/out.jpg" [] "req-1" c2UrlData 0 0).1 (by decide)).1)⟩

/-! ## Claim C6 — the mock stock-photo fallback -/

/-- A store with a configured OpenRouter key for the mock-fallback claim. -/
def c6Store : StorageData := initialData.setSetting "openrouter_api_key" (Value.vStr "sk-or-abc")

/-- An HTTP-success body with prose only: no structured image field, no URL,
no base64 data, no image tokens. -/
def c6Data : ORData :=
  { content := "Here is a thorough description of how the outfit would look.",
    imageTokens := 0, fullText := "irrelevant" }

/-- C6 (confirmed): on an HTTP-success response with no extractable image
and no image tokens, a failure roll of 1/2 (≥ 0.1) and an index roll of 0
make `generateTryOn` return `success: true` with the first hardcoded
Unsplash stock-photo URL — a fabricated success in place of the spec's
"200 OK with no image" failure mode. -/
theorem C6_theorem :
    (OpenRouterService.generateTryOn orInitialConfig c6Store (.httpOk c6Data)
        ((1 : Rat) / 2) 0).1
      = ⟨true,
          some "https://images.unsplash.com/photo-1515372039744-b8f02a3ae446?w=400&h=600&fit=crop",
          none⟩
      ∧ "https://images.unsplash.com/photo-1515372039744-b8f02a3ae446?w=400&h=600&fit=crop"
        ∈ OpenRouterService.mockResults := by
  have hkey : (OpenRouterService.loadApiKey orInitialConfig c6Store).apiKey.truthy = true := by
    decide
  have hurl : firstUrlMatch false c6Data.content.data = none := by decide
  have hb64 : firstB64Match c6Data.content.data = none := by decide
  have hc : (c6Data.content != "") = true := by decide
  have htok : c6Data.imageTokens = 0 := rfl
  have hq : ¬ ((1 : Rat) / 2 < (1 : Rat) / 10) := by norm_num
  have hgen : (OpenRouterService.generateTryOn orInitialConfig c6Store (.httpOk c6Data)
      ((1 : Rat) / 2) 0).1
      = OpenRouterService.mockTryOnResponse ((1 : Rat) / 2) 0 := by
    simp [OpenRouterService.generateTryOn, hkey, hc, hurl, hb64, htok]
  have hm : OpenRouterService.mockTryOnResponse ((1 : Rat) / 2) 0
      = ⟨true,
          some "https://images.unsplash.com/photo-1515372039744-b8f02a3ae446?w=400&h=600&fit=crop",
          none⟩ := by
    unfold OpenRouterService.mockTryOnResponse
    rw [if_neg hq]
    norm_num [OpenRouterService.mockResults]
  refine ⟨?_, ?_⟩
  · rw [hgen, hm]
  · decide

end FitMirror
